import Mathlib

/-!
Verification of the scoring and aggregation engine of the faculty
evaluation dashboard (src/evaluation.py, src/export_marks.py).

The Python code is embedded shallowly: pandas rows become association
lists of optional column values, Firestore documents become records,
Python dicts become association lists (first occurrence is the binding),
and the interactive radio widget becomes a function from its option list
and the grader input.  All functions below are direct translations of
the source; definitions whose doc comment begins with "Modelled from the
spec" translate the specification text instead, for comparison against
the code.
-/

namespace SkillEval

/-! ## Python string primitives -/

/-- The characters of a string. -/
def chars (s : String) : List Char := s.toList

/-- A string built from characters. -/
def ofChars (l : List Char) : String := String.mk l

/-- Python str.lower (ASCII, which covers the data in scope). -/
def pyLower (s : String) : String := ofChars ((chars s).map Char.toLower)

/-- Python str.strip: drop whitespace from both ends. -/
def pyStrip (s : String) : String :=
  ofChars ((((chars s).dropWhile Char.isWhitespace).reverse.dropWhile Char.isWhitespace).reverse)

/-- Python str.replace of a one-character pattern by the empty string:
remove every occurrence of the character. -/
def removeChar (c : Char) (s : String) : String :=
  ofChars ((chars s).filter (fun a => !(a == c)))

/-- Does the string start with the given character?  (The source only uses
one-character prefixes in str.startswith.) -/
def headIs (s : String) (c : Char) : Bool :=
  match chars s with
  | a :: _ => a == c
  | [] => false

/-- Python str.isdigit: nonempty and all digits. -/
def pyIsDigit (s : String) : Bool :=
  !(chars s).isEmpty && (chars s).all Char.isDigit

/-- Numeric value of a nonempty all-digit character list. -/
def digitsVal (l : List Char) : Option Nat :=
  if l.isEmpty then none
  else if l.all Char.isDigit then
    some (l.foldl (fun n c => 10 * n + (c.toNat - 48)) 0)
  else none

/-- Python int(s) on a string: optional sign then digits, surrounding
whitespace tolerated; none when the conversion raises. -/
def pyInt (s : String) : Option Int :=
  match chars (pyStrip s) with
  | '-' :: rest => (digitsVal rest).map (fun n => -(n : Int))
  | '+' :: rest => (digitsVal rest).map (fun n => (n : Int))
  | l => (digitsVal l).map (fun n => (n : Int))

/-- Python int(float(s)) for plain decimal numerals: the integer part,
truncated toward zero.  Exponent and special float forms are not
modelled; for those inputs the likert branch of the source contributes
nothing, as for any other unparsable string. -/
def pyFloatInt (s : String) : Option Int :=
  match (chars (pyStrip s)).splitOn '.' with
  | [l] =>
    match l with
    | '-' :: rest => (digitsVal rest).map (fun n => -(n : Int))
    | '+' :: rest => (digitsVal rest).map (fun n => (n : Int))
    | l0 => (digitsVal l0).map (fun n => (n : Int))
  | [l, frac] =>
    if frac.all Char.isDigit then
      match l with
      | '-' :: rest =>
        if rest.isEmpty && frac.isEmpty then none
        else if rest.all Char.isDigit then
          some (-(((digitsVal rest).getD 0 : Nat) : Int))
        else none
      | '+' :: rest =>
        if rest.isEmpty && frac.isEmpty then none
        else if rest.all Char.isDigit then some (((digitsVal rest).getD 0 : Nat) : Int)
        else none
      | l0 =>
        if l0.isEmpty && frac.isEmpty then none
        else if l0.all Char.isDigit then some (((digitsVal l0).getD 0 : Nat) : Int)
        else none
    else none
  | _ => none

/-- Python str() of an optional value whose absence is the pandas NaN. -/
def pyStr (o : Option String) : String := o.getD "nan"

/-! ## Python dict as an association list (first occurrence binds) -/

/-- dict lookup: the first binding of the key. -/
def dget {α : Type} : List (String × α) → String → Option α
  | [], _ => none
  | p :: rest, k => if p.1 == k then some p.2 else dget rest k

/-- dict assignment: replace the first binding of the key, or append. -/
def dset {α : Type} : List (String × α) → String → α → List (String × α)
  | [], k, v => [(k, v)]
  | p :: rest, k, v => if p.1 == k then (k, v) :: rest else p :: dset rest k v

/-! ## Data model -/

/-- One row of a question-bank table (a pandas row).  `questionID` is the
QuestionID column (`none` for absent/NaN), `qtype` the Type column as
loaded (load_csv lowercases and strips it), `question` the Question text,
and `cols` the remaining columns (the answer-key candidates), each value
`none` when the cell is null. -/
structure Row where
  questionID : Option String
  qtype : String
  question : String
  cols : List (String × Option String)
deriving DecidableEq, Repr

/-- One entry of a submission's Responses list.  Each field is the value
stored under the corresponding dictionary key, `none` when the key is
absent. -/
structure RespEntry where
  questionID : Option String
  question_id : Option String
  Response : Option String
  response : Option String
deriving DecidableEq, Repr

/-- Grader marks: the manual_marks dict. -/
abbrev Marks := List (String × Int)

/-- The Evaluation sub-object stored on a student_responses document, as
written by the save handler.  `none` models an absent field (dict.get
returning None); `evaluated_at` is the server timestamp. -/
structure EvalRec where
  auto_mcq : Option Int := none
  auto_likert : Option Int := none
  manual_marks : Marks := []
  manual_total : Option Int := none
  final_total : Option Int := none
  grand_total : Option Int := none
  evaluated_at : Option Nat := none
deriving DecidableEq, Repr

/-- One student_responses document. -/
structure StudentDoc where
  doc_id : String
  roll : String
  sectionName : String
  responses : List RespEntry
  evaluation : EvalRec
deriving DecidableEq, Repr

/-! ## Scale mapping (evaluation.py lines 81-97) -/

/-- Question numbers on the four-point scale. -/
def FOUR_POINT_QUESTIONS : List Int := [12, 13, 14, 16, 17, 18]

/-- Question numbers on the three-point scale. -/
def THREE_POINT_QUESTIONS : List Int := [22, 23, 24, 25, 28, 29, 30, 34]

/-- parse_qid: int(str(q).replace("Q", "").strip()), and -1 when the
conversion raises. -/
def parse_qid (q : String) : Int :=
  (pyInt (pyStrip (removeChar 'Q' q))).getD (-1)

/-- get_scale_options: the mark scale of a manual question, determined
by the parsed question number. -/
def get_scale_options (qid : String) : List Int :=
  if parse_qid qid ∈ FOUR_POINT_QUESTIONS then [0, 1, 2, 3]
  else if parse_qid qid ∈ THREE_POINT_QUESTIONS then [0, 1, 2]
  else [0, 1]

/-! ## Correct-answer probing (evaluation.py lines 167-174) -/

/-- A column value of a bank row: `some v` when the column is present and
the cell is not null. -/
def colGet (row : Row) (c : String) : Option String :=
  match dget row.cols c with
  | some (some v) => some v
  | _ => none

/-- The candidate answer-key column names, in the order the code probes
them. -/
def answer_cols : List String := ["Answer", "Correct", "CorrectAnswer", "Ans", "AnswerKey"]

/-- str(v).strip().lower() with double quotes, single quotes and periods
removed, as get_correct_answer normalizes the answer cell. -/
def clean_answer (v : String) : String :=
  removeChar '.' (removeChar (Char.ofNat 39) (removeChar (Char.ofNat 34) (pyLower (pyStrip v))))

/-- get_correct_answer: the first present, non-null candidate column,
normalized. -/
def get_correct_answer (row : Row) : Option String :=
  answer_cols.findSome? (fun c => (colGet row c).map clean_answer)

/-! ## Auto scoring (evaluation.py lines 176-236) -/

/-- The q_lookup dict: each row is keyed by its stripped QuestionID, and
also by the id with a leading A or L removed when longer than one
character.  Later rows overwrite earlier bindings, as in a dict. -/
def q_lookup (df : List Row) : List (String × Row) :=
  df.foldl
    (fun acc row =>
      match row.questionID with
      | none => acc
      | some raw =>
        let q := pyStrip raw
        let acc1 := dset acc q row
        if (headIs q 'A' || headIs q 'L') && (chars q).length > 1 then
          dset acc1 (ofChars ((chars q).drop 1)) row
        else acc1)
    []

/-- The candidate lookup keys tried for a response question id. -/
def possible_keys (qid : String) : List String :=
  let ks := [qid]
  let ks := if headIs qid 'A' || headIs qid 'L' || headIs qid 'Q' then
      ks ++ [ofChars ((chars qid).drop 1)]
    else ks
  if pyIsDigit qid then ks ++ [ofChars ('A' :: chars qid), ofChars ('L' :: chars qid)]
  else ks

/-- The bank row matched to a response id: the first candidate key bound
in q_lookup. -/
def find_question_row (df : List Row) (qid : String) : Option Row :=
  (possible_keys qid).findSome? (fun k => dget (q_lookup df) k)

/-- The question id of a response entry: the QuestionID key, else the
question_id key, stripped. -/
def entry_qid (e : RespEntry) : Option String :=
  match e.questionID with
  | some v => some (pyStrip v)
  | none => e.question_id.map pyStrip

/-- The student answer of a response entry: the Response key, else the
response key, stripped and lowercased. -/
def entry_ans (e : RespEntry) : Option String :=
  match e.Response with
  | some v => some (pyLower (pyStrip v))
  | none => e.response.map (fun v => pyLower (pyStrip v))

/-- The contribution of one response entry to (mcq_score, likert_score). -/
def auto_score_step (df : List Row) (acc : Int × Int) (e : RespEntry) : Int × Int :=
  match entry_qid e, entry_ans e with
  | some qid, some ans =>
    if qid == "" || ans == "" then acc
    else
      match find_question_row df qid with
      | none => acc
      | some row =>
        let q_type := pyStrip (pyLower row.qtype)
        if q_type == "mcq" then
          match get_correct_answer row with
          | some ca => if !(ca == "") && ans == ca then (acc.1 + 1, acc.2) else acc
          | none => acc
        else if q_type == "likert" then
          match pyFloatInt ans with
          | some v => (acc.1, acc.2 + max 0 (min 4 (v - 1)))
          | none => acc
        else acc
  | _, _ => acc

/-- calculate_auto_scores: (mcq_score, likert_score) for one section. -/
def calculate_auto_scores (df : List Row) (responses : List RespEntry) : Int × Int :=
  responses.foldl (auto_score_step df) (0, 0)

/-! ## Manual evaluation (evaluation.py lines 238-283) -/

/-- Model of the st.radio widget: it returns the option the grader
selected, which is always drawn from `options`; with no interaction it is
the option at `index`.  `choice` is the grader input (`none` when the
grader leaves the preselected option). -/
def st_radio (options : List Int) (index : Nat) (choice : Option Int) : Int :=
  match choice with
  | some c => if c ∈ options then c else options.getD index 0
  | none => options.getD index 0

/-- The rows of the bank whose Type is short or descriptive. -/
def manual_questions (df : List Row) : List Row :=
  df.filter (fun r => r.qtype == "short" || r.qtype == "descriptive")

/-- The key under which a manual question is marked: str(row["QuestionID"]). -/
def row_qid (row : Row) : String := pyStr row.questionID

/-- One iteration of the manual-evaluation loop: read the stored mark as
the default (out-of-scale stored marks fall back to 0), show the radio,
record the chosen mark and add it to the running total. -/
def manual_step (pick : String → Option Int) (acc : Int × Marks) (row : Row) : Int × Marks :=
  let qid := row_qid row
  let scale_options := get_scale_options qid
  let default0 := (dget acc.2 qid).getD 0
  let default_mark := if default0 ∈ scale_options then default0 else 0
  let mark := st_radio scale_options (scale_options.indexOf default_mark) (pick qid)
  (acc.1 + mark, dset acc.2 qid mark)

/-- evaluate_manual_questions: (manual_total, manual_marks) after the
grader's pass over the section's manual questions.  `responses` is used
by the source only to display the student answer.  `pick` is the grader
input per question id. -/
def evaluate_manual_questions (df : List Row) (responses : List RespEntry)
    (existing_manual_marks : Marks) (pick : String → Option Int) : Int × Marks :=
  (manual_questions df).foldl (manual_step pick) (0, existing_manual_marks)

/-! ## Real-time totals and the save handler (evaluation.py lines 288-325, 430-453) -/

/-- calculate_real_time_totals: the grand total shown and saved.  The
current test contributes the freshly computed score; every other test
contributes its stored final_total, or 0 when absent.  (The per-test
status strings built alongside are display only and omitted.) -/
def calculate_real_time_totals (student_data : List StudentDoc)
    (current_test_id : String) (current_test_score : Int) : Int :=
  student_data.foldl
    (fun g item =>
      if item.doc_id == current_test_id then g + current_test_score
      else
        match item.evaluation.final_total with
        | none => g
        | some saved_final => g + saved_final)
    0

/-- The freshly computed final score of the selected test during a page
render: recomputed auto scores plus the manual total from the radio pass
seeded with the stored marks. -/
def page_final_score (bank : List Row) (sel : StudentDoc) (pick : String → Option Int) : Int :=
  let a := calculate_auto_scores bank sel.responses
  let mm := evaluate_manual_questions bank sel.responses sel.evaluation.manual_marks pick
  a.1 + a.2 + mm.1

/-- The student_data list of the page: the documents whose stripped Roll
equals the selected roll and whose stripped Section is nonempty, as
load_all_student_data groups them. -/
def load_student_data (store : List StudentDoc) (roll : String) : List StudentDoc :=
  store.filter (fun d => pyStrip d.roll == roll && !(pyStrip d.sectionName == ""))

/-- The evaluation_data dict the save handler writes to the selected
document: recomputed auto scores, the marks and total of the radio pass,
their sum as final_total, the server timestamp, and the real-time grand
total. -/
def eval_for (store : List StudentDoc) (bank : List Row) (doc_id : String)
    (sel : StudentDoc) (pick : String → Option Int) (now : Nat) : EvalRec :=
  let roll := pyStrip sel.roll
  let student_data := load_student_data store roll
  let a := calculate_auto_scores bank sel.responses
  let mm := evaluate_manual_questions bank sel.responses sel.evaluation.manual_marks pick
  let final_score := a.1 + a.2 + mm.1
  let grand := calculate_real_time_totals student_data doc_id final_score
  { auto_mcq := some a.1
    auto_likert := some a.2
    manual_marks := mm.2
    manual_total := some mm.1
    final_total := some final_score
    evaluated_at := some now
    grand_total := some grand }

/-- The Evaluation record the save button writes for the selected
document, when that document exists. -/
def save_core (store : List StudentDoc) (bank : List Row) (doc_id : String)
    (pick : String → Option Int) (now : Nat) : Option EvalRec :=
  (store.find? (fun d => d.doc_id == doc_id)).map
    (fun sel => eval_for store bank doc_id sel pick now)

/-- The first write of the save handler on one document: the selected
document gets the fresh evaluation_data. -/
def upd_selected (doc_id : String) (newEval : EvalRec) (d : StudentDoc) : StudentDoc :=
  if d.doc_id == doc_id then { d with evaluation := newEval } else d

/-- The fan-out loop of the save handler on one document: every document
whose Roll equals the selected roll gets the grand_total written into its
Evaluation, all other fields untouched. -/
def upd_fanout (roll : String) (g : Option Int) (d : StudentDoc) : StudentDoc :=
  if d.roll == roll then
    { d with evaluation := { d.evaluation with grand_total := g } }
  else d

/-- The save button handler: replace the Evaluation of the selected
document with the fresh evaluation_data, then write its grand_total into
the Evaluation of every document whose Roll equals the selected roll
(the fan-out loop). -/
def save_evaluation (store : List StudentDoc) (bank : List Row) (doc_id : String)
    (pick : String → Option Int) (now : Nat) : List StudentDoc :=
  match store.find? (fun d => d.doc_id == doc_id) with
  | none => store
  | some sel =>
    let newEval := eval_for store bank doc_id sel pick now
    (store.map (upd_selected doc_id newEval)).map
      (upd_fanout (pyStrip sel.roll) newEval.grand_total)

/-! ## Export (export_marks.py lines 76-120 and evaluation.py lines 478-514) -/

/-- A cell of the exported table: a number or a literal string marker. -/
inductive CellVal
  | i : Int → CellVal
  | s : String → CellVal
deriving DecidableEq, Repr

/-- A stored total displayed as itself, or as the literal "N/A" marker
when absent. -/
def showOpt (v : Option Int) : CellVal :=
  match v with
  | some n => CellVal.i n
  | none => CellVal.s "N/A"

/-- One row of the export_marks.py report (the four score cells). -/
structure ExportRow where
  mcq_show : CellVal
  likert_show : CellVal
  text_show : CellVal
  final_show : CellVal
deriving DecidableEq, Repr

/-- The N/A logic of export_marks.py: the markers are chosen by the
section name, and a missing stored total also displays as "N/A". -/
def export_row (sectionName : String) (mcq likert text : Option Int) : ExportRow :=
  if sectionName == "Adaptability & Learning" then
    { mcq_show := CellVal.s "N/A", likert_show := showOpt likert,
      text_show := CellVal.s "N/A", final_show := showOpt likert }
  else if sectionName == "Aptitude Test" then
    { mcq_show := showOpt mcq, likert_show := CellVal.s "N/A",
      text_show := showOpt text, final_show := CellVal.i (mcq.getD 0 + text.getD 0) }
  else if sectionName == "Communication Skills - Descriptive" then
    { mcq_show := CellVal.s "N/A", likert_show := CellVal.s "N/A",
      text_show := showOpt text, final_show := showOpt text }
  else if sectionName == "Communication Skills - Objective" then
    { mcq_show := showOpt mcq, likert_show := CellVal.s "N/A",
      text_show := CellVal.s "N/A", final_show := showOpt mcq }
  else
    { mcq_show := CellVal.s "N/A", likert_show := CellVal.s "N/A",
      text_show := CellVal.s "N/A", final_show := CellVal.s "N/A" }

/-- Does the bank contain a row of the given Type?  (The in-app report of
evaluation.py tests len(df[df["Type"] == t]) > 0.) -/
def bank_has_type (df : List Row) (t : String) : Bool :=
  df.any (fun r => r.qtype == t)

/-- Does the bank contain a short or descriptive row? -/
def bank_has_manual (df : List Row) : Bool :=
  df.any (fun r => r.qtype == "short" || r.qtype == "descriptive")

/-- The in-app report cell of evaluation.py for the mcq score: the score
when the bank has mcq rows, else the literal "NA". -/
def app_mcq_display (df : List Row) (v : Int) : CellVal :=
  if bank_has_type df "mcq" then CellVal.i v else CellVal.s "NA"

/-- The in-app report cell for the likert score. -/
def app_likert_display (df : List Row) (v : Int) : CellVal :=
  if bank_has_type df "likert" then CellVal.i v else CellVal.s "NA"

/-- The in-app report cell for the manual total. -/
def app_manual_display (df : List Row) (v : Int) : CellVal :=
  if bank_has_manual df then CellVal.i v else CellVal.s "NA"

/-! ## Definitions modelled from the specification, for comparison -/

/-- Modelled from the spec: the grand total as section 4.3 step 5
describes it, the sum over every section document of the freshly
recomputed auto scores plus the last-saved text total.  Value
normalisation of the auto scores follows the code, so that the only
difference under test is which per-section totals enter the sum. -/
def spec_grand_total (bank_of : String → List Row) (docs : List StudentDoc) : Int :=
  (docs.map
    (fun d =>
      let a := calculate_auto_scores (bank_of d.sectionName) d.responses
      a.1 + a.2 + (d.evaluation.manual_total).getD 0)).sum

/-- Modelled from the spec: the candidate answer-key column names in the
order the specification lists them. -/
def spec_answer_cols : List String :=
  ["Answer", "CorrectAnswer", "Correct", "Ans", "AnswerKey", "RightAnswer"]

/-- Modelled from the spec: probe the specification's candidate columns
in its order and use the first present non-null one.  Value
normalisation follows the code, so that the only difference under test
is the probing order and the candidate set. -/
def spec_get_correct_answer (row : Row) : Option String :=
  spec_answer_cols.findSome? (fun c => (colGet row c).map clean_answer)

/-! ## Derived definitions used by the development -/

/-- The fold underlying evaluate_manual_questions. -/
def mq_run (pick : String → Option Int) (L : List Row) (acc : Int × Marks) : Int × Marks :=
  L.foldl (manual_step pick) acc

/-- The mark the radio pass records for a question id, given the current
marks dict. -/
def mark_for (pick : String → Option Int) (m : Marks) (qid : String) : Int :=
  st_radio (get_scale_options qid)
    ((get_scale_options qid).indexOf
      (if (dget m qid).getD 0 ∈ get_scale_options qid then (dget m qid).getD 0 else 0))
    (pick qid)

/-- The marks dict is stable at a question id when the stored value is
exactly what the radio pass would record again. -/
def StableAt (pick : String → Option Int) (m : Marks) (qid : String) : Prop :=
  dget m qid = some (mark_for pick m qid)

/-- The per-document effect of the save handler: the selected document
gets the fresh evaluation_data, and every document of the selected roll
gets the fanned-out grand_total. -/
def saveF (store : List StudentDoc) (bank : List Row) (doc_id : String)
    (sel : StudentDoc) (pick : String → Option Int) (now : Nat)
    (d : StudentDoc) : StudentDoc :=
  upd_fanout (pyStrip sel.roll) (eval_for store bank doc_id sel pick now).grand_total
    (upd_selected doc_id (eval_for store bank doc_id sel pick now) d)

/-! ## Concrete fixtures for the claims -/

/-- A grader who leaves every radio at its preselected option. -/
def noPick : String → Option Int := fun _ => none

/-- A response entry with the QuestionID and Response keys. -/
def mkResp (q a : String) : RespEntry :=
  { questionID := some q, question_id := none, Response := some a, response := none }

/-- An mcq bank row with correct answer B. -/
def rowB : Row :=
  { questionID := some "Q1", qtype := "mcq", question := "", cols := [("Answer", some "B")] }

/-- An mcq bank row whose id carries an A prefix. -/
def rowA5 : Row :=
  { questionID := some "A5", qtype := "mcq", question := "", cols := [("Answer", some "x")] }

/-- A likert bank row. -/
def lrowL1 : Row :=
  { questionID := some "L1", qtype := "likert", question := "", cols := [] }

/-- A bank row carrying both a CorrectAnswer and a Correct column. -/
def rowCC : Row :=
  { questionID := some "Q1", qtype := "mcq", question := "",
    cols := [("CorrectAnswer", some "B"), ("Correct", some "C")] }

/-- A bank row whose only answer column is RightAnswer. -/
def rowRA : Row :=
  { questionID := some "Q1", qtype := "mcq", question := "",
    cols := [("RightAnswer", some "B")] }

/-- A short-answer row on the four-point scale (question number 12). -/
def row12s : Row :=
  { questionID := some "12", qtype := "short", question := "", cols := [] }

/-- A short-answer row on the binary scale (question number 1). -/
def row1s : Row :=
  { questionID := some "1", qtype := "short", question := "", cols := [] }

/-- A document being saved: the Aptitude Test submission of student r1,
not yet evaluated. -/
def d1A : StudentDoc :=
  { doc_id := "d1", roll := "r1", sectionName := "Aptitude Test", responses := [],
    evaluation := {} }

/-- The other section document of student r1, with a stale stored
final_total of 100 while its last-saved text total is 5 and its fresh
auto scores are 0. -/
def d2D : StudentDoc :=
  { doc_id := "d2", roll := "r1", sectionName := "Communication Skills - Descriptive",
    responses := [], evaluation := { manual_total := some 5, final_total := some 100 } }

/-- What the save of d1 makes of d2D: only grand_total is written. -/
def d2Dsaved : StudentDoc :=
  { doc_id := "d2", roll := "r1", sectionName := "Communication Skills - Descriptive",
    responses := [],
    evaluation := { manual_total := some 5, final_total := some 100, grand_total := some 100 } }

/-- A document holding stored marks 5 and 2 that lie outside the scales
of questions 12 and 1. -/
def staleDoc : StudentDoc :=
  { doc_id := "dS", roll := "r1", sectionName := "Aptitude Test", responses := [],
    evaluation := { manual_marks := [("12", 5), ("1", 2)] } }

/-! ## Dictionary lemmas -/

theorem dget_dset_self {α : Type} (m : List (String × α)) (k : String) (v : α) :
    dget (dset m k v) k = some v := by
  induction m with
  | nil => simp [dget, dset]
  | cons p rest ih =>
    by_cases h : p.1 = k
    · simp [dset, dget, h]
    · simp [dset, dget, h, ih]

theorem dget_dset_ne {α : Type} (m : List (String × α)) (k k2 : String) (v : α)
    (h : k ≠ k2) : dget (dset m k v) k2 = dget m k2 := by
  induction m with
  | nil => simp [dget, dset, h]
  | cons p rest ih =>
    by_cases hp : p.1 = k
    · simp [dset, dget, hp, h, hp ▸ h]
    · by_cases hp2 : p.1 = k2
      · simp [dset, dget, hp, hp2, Ne.symm h]
      · simp [dset, dget, hp, hp2, ih]

theorem dset_eq_self {α : Type} (m : List (String × α)) (k : String) (v : α)
    (h : dget m k = some v) : dset m k v = m := by
  induction m with
  | nil => simp [dget] at h
  | cons p rest ih =>
    by_cases hp : p.1 = k
    · simp only [dget, show (p.1 == k) = true by simpa using hp, if_true,
        Option.some.injEq] at h
      cases p with
      | mk k0 v0 =>
        simp only at hp h
        simp [dset, hp, h]
    · simp only [dget, show (p.1 == k) = false by simpa using hp,
        Bool.false_eq_true, if_false] at h
      simp [dset, hp, ih h]

/-! ## Scale and radio lemmas -/

theorem scale_cases (q : String) :
    get_scale_options q = [0, 1, 2, 3] ∨ get_scale_options q = [0, 1, 2] ∨
      get_scale_options q = [0, 1] := by
  unfold get_scale_options
  split
  · exact Or.inl rfl
  · split
    · exact Or.inr (Or.inl rfl)
    · exact Or.inr (Or.inr rfl)

theorem zero_mem_scale (q : String) : (0 : Int) ∈ get_scale_options q := by
  rcases scale_cases q with h | h | h <;> rw [h] <;> decide

theorem getD_mem_of_zero_mem (L : List Int) (i : Nat) (h0 : (0 : Int) ∈ L) :
    L.getD i 0 ∈ L := by
  by_cases h : i < L.length
  · rw [List.getD_eq_getElem L 0 h]
    exact List.getElem_mem h
  · rw [List.getD_eq_default L 0 (Nat.le_of_not_lt h)]
    exact h0

theorem getD_indexOf_self (L : List Int) (r : Int) (h : r ∈ L) :
    L.getD (L.indexOf r) 0 = r := by
  rw [List.getD_eq_getElem L 0 (List.indexOf_lt_length.2 h)]
  exact List.getElem_indexOf (List.indexOf_lt_length.2 h)

theorem radio_mem (q : String) (i : Nat) (c : Option Int) :
    st_radio (get_scale_options q) i c ∈ get_scale_options q := by
  cases c with
  | none => exact getD_mem_of_zero_mem _ i (zero_mem_scale q)
  | some v =>
    simp only [st_radio]
    by_cases h : v ∈ get_scale_options q
    · simp [h]
    · simpa [h] using getD_mem_of_zero_mem _ i (zero_mem_scale q)

theorem radio_stable (q : String) (c : Option Int) (i : Nat) :
    st_radio (get_scale_options q) ((get_scale_options q).indexOf
      (st_radio (get_scale_options q) i c)) c = st_radio (get_scale_options q) i c := by
  cases c with
  | none =>
    simp only [st_radio]
    exact getD_indexOf_self _ _ (getD_mem_of_zero_mem _ i (zero_mem_scale q))
  | some v =>
    simp only [st_radio]
    by_cases h : v ∈ get_scale_options q
    · simp [h]
    · simp only [h, if_false]
      exact getD_indexOf_self _ _ (getD_mem_of_zero_mem _ i (zero_mem_scale q))

/-! ## The manual-evaluation fold -/

theorem evaluate_manual_eq_run (df : List Row) (responses : List RespEntry)
    (existing : Marks) (pick : String → Option Int) :
    evaluate_manual_questions df responses existing pick =
      mq_run pick (manual_questions df) (0, existing) := rfl

theorem manual_step_eq (pick : String → Option Int) (acc : Int × Marks) (row : Row) :
    manual_step pick acc row =
      (acc.1 + mark_for pick acc.2 (row_qid row),
        dset acc.2 (row_qid row) (mark_for pick acc.2 (row_qid row))) := rfl

theorem mark_for_mem (pick : String → Option Int) (m : Marks) (qid : String) :
    mark_for pick m qid ∈ get_scale_options qid := radio_mem qid _ (pick qid)

theorem mark_for_congr (pick : String → Option Int) (m m2 : Marks) (qid : String)
    (h : dget m qid = dget m2 qid) : mark_for pick m qid = mark_for pick m2 qid := by
  simp [mark_for, h]

theorem mark_for_of_dget (pick : String → Option Int) (m : Marks) (qid : String)
    (r : Int) (h : dget m qid = some r) (hr : r ∈ get_scale_options qid) :
    mark_for pick m qid =
      st_radio (get_scale_options qid) ((get_scale_options qid).indexOf r) (pick qid) := by
  rw [mark_for, h]
  simp only [Option.getD_some, hr, if_true]

theorem radio_fix (q : String) (c : Option Int) {i : Nat} (r : Int)
    (h : r = st_radio (get_scale_options q) i c) :
    st_radio (get_scale_options q) ((get_scale_options q).indexOf r) c = r := by
  subst h
  exact radio_stable q c i

theorem stableAt_after_set (pick : String → Option Int) (m : Marks) (qid : String) :
    StableAt pick (dset m qid (mark_for pick m qid)) qid := by
  have h1 : dget (dset m qid (mark_for pick m qid)) qid = some (mark_for pick m qid) :=
    dget_dset_self m qid _
  have h2 : mark_for pick (dset m qid (mark_for pick m qid)) qid = mark_for pick m qid := by
    rw [mark_for_of_dget pick _ qid (mark_for pick m qid) h1 (mark_for_mem pick m qid)]
    exact radio_fix qid (pick qid) (mark_for pick m qid) rfl
  unfold StableAt
  rw [h1, h2]

theorem dget_run_of_stable (pick : String → Option Int) (L : List Row) :
    ∀ (t : Int) (m : Marks) (qid : String), StableAt pick m qid →
      dget (mq_run pick L (t, m)).2 qid = dget m qid ∧
        StableAt pick (mq_run pick L (t, m)).2 qid := by
  induction L with
  | nil => intro t m qid h; exact ⟨rfl, h⟩
  | cons row L ih =>
    intro t m qid h
    rw [mq_run, List.foldl_cons, manual_step_eq, ← mq_run]
    by_cases hq : row_qid row = qid
    · rw [hq]
      rw [dset_eq_self m qid (mark_for pick m qid) h]
      exact ih _ m qid h
    · have hd : dget (dset m (row_qid row) (mark_for pick m (row_qid row))) qid = dget m qid :=
        dget_dset_ne m (row_qid row) qid _ hq
      have hs : StableAt pick (dset m (row_qid row) (mark_for pick m (row_qid row))) qid := by
        unfold StableAt
        rw [hd, mark_for_congr pick _ m qid hd]
        exact h
      rcases ih _ _ qid hs with ⟨h1, h2⟩
      exact ⟨h1.trans hd, h2⟩

theorem dget_run_notMem (pick : String → Option Int) (L : List Row) :
    ∀ (t : Int) (m : Marks) (k : String), k ∉ L.map row_qid →
      dget (mq_run pick L (t, m)).2 k = dget m k := by
  induction L with
  | nil => intro t m k _; rfl
  | cons row L ih =>
    intro t m k hk
    simp only [List.map_cons, List.mem_cons, not_or] at hk
    rw [mq_run, List.foldl_cons, manual_step_eq, ← mq_run]
    rw [ih _ _ k hk.2]
    exact dget_dset_ne m (row_qid row) k _ (fun h => hk.1 h.symm)

theorem stableAt_run (pick : String → Option Int) (L : List Row) :
    ∀ (t : Int) (m : Marks) (row : Row), row ∈ L →
      StableAt pick (mq_run pick L (t, m)).2 (row_qid row) := by
  induction L with
  | nil => intro t m row h; cases h
  | cons row0 L ih =>
    intro t m row h
    rw [mq_run, List.foldl_cons, manual_step_eq, ← mq_run]
    rcases List.mem_cons.1 h with h | h
    · subst h
      exact (dget_run_of_stable pick L _ _ _ (stableAt_after_set pick m (row_qid row))).2
    · exact ih _ _ row h

theorem mq_run_total (pick : String → Option Int) (L : List Row) :
    ∀ (t : Int) (m : Marks),
      (mq_run pick L (t, m)).1 =
        t + (L.map (fun row => (dget (mq_run pick L (t, m)).2 (row_qid row)).getD 0)).sum := by
  induction L with
  | nil => intro t m; simp [mq_run]
  | cons row L ih =>
    intro t m
    rw [mq_run, List.foldl_cons, manual_step_eq, ← mq_run]
    have hst := dget_run_of_stable pick L (t + mark_for pick m (row_qid row))
      (dset m (row_qid row) (mark_for pick m (row_qid row))) (row_qid row)
      (stableAt_after_set pick m (row_qid row))
    rw [List.map_cons, List.sum_cons]
    rw [ih]
    rw [hst.1, dget_dset_self]
    simp only [Option.getD_some]
    ring

theorem mq_run_of_all_stable (pick : String → Option Int) (L : List Row) :
    ∀ (t : Int) (m : Marks), (∀ row ∈ L, StableAt pick m (row_qid row)) →
      mq_run pick L (t, m) =
        (t + (L.map (fun row => (dget m (row_qid row)).getD 0)).sum, m) := by
  induction L with
  | nil => intro t m _; simp [mq_run]
  | cons row L ih =>
    intro t m h
    rw [mq_run, List.foldl_cons, manual_step_eq, ← mq_run]
    have h0 : StableAt pick m (row_qid row) := h row (List.mem_cons_self row L)
    have hv : (dget m (row_qid row)).getD 0 = mark_for pick m (row_qid row) := by
      rw [h0]; rfl
    rw [dset_eq_self m (row_qid row) (mark_for pick m (row_qid row)) h0]
    rw [ih _ m (fun r hr => h r (List.mem_cons_of_mem row hr))]
    rw [List.map_cons, List.sum_cons, hv]
    congr 1
    ring

/-- Repeating the radio pass on its own output reproduces the same total
and the same marks dict. -/
theorem evaluate_manual_idem (df : List Row) (responses : List RespEntry)
    (existing : Marks) (pick : String → Option Int) :
    evaluate_manual_questions df responses
        (evaluate_manual_questions df responses existing pick).2 pick =
      evaluate_manual_questions df responses existing pick := by
  rw [evaluate_manual_eq_run, evaluate_manual_eq_run]
  have hstable : ∀ row ∈ manual_questions df,
      StableAt pick (mq_run pick (manual_questions df) (0, existing)).2 (row_qid row) :=
    fun row hr => stableAt_run pick (manual_questions df) 0 existing row hr
  rw [mq_run_of_all_stable pick (manual_questions df) 0 _ hstable]
  have ht := mq_run_total pick (manual_questions df) 0 existing
  rw [zero_add] at ht ⊢
  exact Prod.ext ht.symm rfl

/-! ## Save-handler lemmas -/

theorem crt_fold_eq (current_test_id : String) (current_test_score : Int)
    (l : List StudentDoc) : ∀ g : Int,
    l.foldl
        (fun g item =>
          if item.doc_id == current_test_id then g + current_test_score
          else
            match item.evaluation.final_total with
            | none => g
            | some saved_final => g + saved_final)
        g =
      g + (l.map
        (fun d =>
          if d.doc_id == current_test_id then current_test_score
          else (d.evaluation.final_total).getD 0)).sum := by
  induction l with
  | nil => intro g; simp
  | cons d l ih =>
    intro g
    rw [List.foldl_cons, List.map_cons, List.sum_cons]
    by_cases hd : (d.doc_id == current_test_id) = true
    · simp only [hd, if_true]
      rw [ih]
      ring
    · simp only [hd, Bool.false_eq_true, if_false]
      cases hfin : d.evaluation.final_total with
      | none => simp only [hfin]; rw [ih]; simp
      | some s => simp only [hfin]; rw [ih]; simp only [Option.getD_some]; ring

/-- calculate_real_time_totals as a sum: the current test contributes the
fresh score, every other document its stored final_total or 0. -/
theorem crt_eq_sum (l : List StudentDoc) (current_test_id : String)
    (current_test_score : Int) :
    calculate_real_time_totals l current_test_id current_test_score =
      (l.map
        (fun d =>
          if d.doc_id == current_test_id then current_test_score
          else (d.evaluation.final_total).getD 0)).sum := by
  rw [calculate_real_time_totals, crt_fold_eq, zero_add]

theorem crt_map_eq (current_test_id : String) (current_test_score : Int)
    (F : StudentDoc → StudentDoc) (l : List StudentDoc)
    (hid : ∀ d, (F d).doc_id = d.doc_id)
    (hfin : ∀ d, (d.doc_id == current_test_id) = false →
      (F d).evaluation.final_total = d.evaluation.final_total) :
    calculate_real_time_totals (l.map F) current_test_id current_test_score =
      calculate_real_time_totals l current_test_id current_test_score := by
  rw [crt_eq_sum, crt_eq_sum, List.map_map]
  refine congrArg List.sum (List.map_congr_left ?_)
  intro d _
  simp only [Function.comp_apply, hid d]
  by_cases hd : (d.doc_id == current_test_id) = true
  · simp [hd]
  · have hb : (d.doc_id == current_test_id) = false := by
      simpa using hd
    simp [hb, hfin d hb]

theorem save_evaluation_map (store : List StudentDoc) (bank : List Row) (doc_id : String)
    (pick : String → Option Int) (now : Nat) (sel : StudentDoc)
    (hf : store.find? (fun d => d.doc_id == doc_id) = some sel) :
    save_evaluation store bank doc_id pick now =
      store.map (saveF store bank doc_id sel pick now) := by
  simp only [save_evaluation, hf, List.map_map]
  rfl

theorem upd_selected_doc_id (doc_id : String) (e : EvalRec) (d : StudentDoc) :
    (upd_selected doc_id e d).doc_id = d.doc_id := by
  unfold upd_selected
  split <;> rfl

theorem upd_selected_roll (doc_id : String) (e : EvalRec) (d : StudentDoc) :
    (upd_selected doc_id e d).roll = d.roll := by
  unfold upd_selected
  split <;> rfl

theorem upd_selected_sectionName (doc_id : String) (e : EvalRec) (d : StudentDoc) :
    (upd_selected doc_id e d).sectionName = d.sectionName := by
  unfold upd_selected
  split <;> rfl

theorem upd_selected_responses (doc_id : String) (e : EvalRec) (d : StudentDoc) :
    (upd_selected doc_id e d).responses = d.responses := by
  unfold upd_selected
  split <;> rfl

theorem upd_fanout_doc_id (roll : String) (g : Option Int) (d : StudentDoc) :
    (upd_fanout roll g d).doc_id = d.doc_id := by
  unfold upd_fanout
  split <;> rfl

theorem upd_fanout_roll (roll : String) (g : Option Int) (d : StudentDoc) :
    (upd_fanout roll g d).roll = d.roll := by
  unfold upd_fanout
  split <;> rfl

theorem upd_fanout_sectionName (roll : String) (g : Option Int) (d : StudentDoc) :
    (upd_fanout roll g d).sectionName = d.sectionName := by
  unfold upd_fanout
  split <;> rfl

theorem upd_fanout_responses (roll : String) (g : Option Int) (d : StudentDoc) :
    (upd_fanout roll g d).responses = d.responses := by
  unfold upd_fanout
  split <;> rfl

theorem upd_fanout_eval (roll : String) (g : Option Int) (d : StudentDoc) :
    (upd_fanout roll g d).evaluation = d.evaluation ∨
      (upd_fanout roll g d).evaluation = { d.evaluation with grand_total := g } := by
  unfold upd_fanout
  split
  · exact Or.inr rfl
  · exact Or.inl rfl

theorem saveF_doc_id (store : List StudentDoc) (bank : List Row) (doc_id : String)
    (sel : StudentDoc) (pick : String → Option Int) (now : Nat) (d : StudentDoc) :
    (saveF store bank doc_id sel pick now d).doc_id = d.doc_id := by
  unfold saveF
  rw [upd_fanout_doc_id, upd_selected_doc_id]

theorem saveF_roll (store : List StudentDoc) (bank : List Row) (doc_id : String)
    (sel : StudentDoc) (pick : String → Option Int) (now : Nat) (d : StudentDoc) :
    (saveF store bank doc_id sel pick now d).roll = d.roll := by
  unfold saveF
  rw [upd_fanout_roll, upd_selected_roll]

theorem saveF_sectionName (store : List StudentDoc) (bank : List Row) (doc_id : String)
    (sel : StudentDoc) (pick : String → Option Int) (now : Nat) (d : StudentDoc) :
    (saveF store bank doc_id sel pick now d).sectionName = d.sectionName := by
  unfold saveF
  rw [upd_fanout_sectionName, upd_selected_sectionName]

theorem saveF_responses (store : List StudentDoc) (bank : List Row) (doc_id : String)
    (sel : StudentDoc) (pick : String → Option Int) (now : Nat) (d : StudentDoc) :
    (saveF store bank doc_id sel pick now d).responses = d.responses := by
  unfold saveF
  rw [upd_fanout_responses, upd_selected_responses]

theorem saveF_final_of_ne (store : List StudentDoc) (bank : List Row) (doc_id : String)
    (sel : StudentDoc) (pick : String → Option Int) (now : Nat) (d : StudentDoc)
    (hd : (d.doc_id == doc_id) = false) :
    (saveF store bank doc_id sel pick now d).evaluation.final_total =
      d.evaluation.final_total := by
  unfold saveF
  have hu : upd_selected doc_id (eval_for store bank doc_id sel pick now) d = d := by
    unfold upd_selected
    simp [hd]
  rw [hu]
  rcases upd_fanout_eval (pyStrip sel.roll)
      (eval_for store bank doc_id sel pick now).grand_total d with h | h <;> rw [h]

theorem saveF_sel (store : List StudentDoc) (bank : List Row) (doc_id : String)
    (sel : StudentDoc) (pick : String → Option Int) (now : Nat)
    (hsel : (sel.doc_id == doc_id) = true) :
    saveF store bank doc_id sel pick now sel =
      { sel with evaluation := eval_for store bank doc_id sel pick now } := by
  unfold saveF upd_selected upd_fanout
  simp only [hsel, if_true]
  split <;> rfl

/-! ## Export lemmas -/

theorem showOpt_eq_na (v : Option Int) : showOpt v = CellVal.s "N/A" ↔ v = none := by
  cases v <;> simp [showOpt]

/-! ## Claim C1: grand-total consistency after a save -/

/-- Claim C1 counterexample: saving section d1 of student r1 stores
grand_total 100 on the other section document d2, because the untouched
section contributes its stale stored final_total of 100; the sum the
specification prescribes, fresh auto scores plus last-saved text totals,
is 5, so the stored grand_total does not equal it. -/
theorem grand_total_stale_counterexample :
    ((save_evaluation [d1A, d2D] [] "d1" noPick 0)[1]?).map
        (fun d => d.evaluation.grand_total) = some (some 100) ∧
      spec_grand_total (fun _ => []) (save_evaluation [d1A, d2D] [] "d1" noPick 0) = 5 ∧
      (100 : Int) ≠ 5 := by
  refine ⟨by decide, by decide, by decide⟩

/-- Claim C1 (amended): after a save, every document of the selected
student carries the same grand_total, equal to the freshly computed final
score of the saved section plus the sum of the stored final_total values
(0 when absent) of the student's other section documents — the untouched
sections contribute their cached final_total, not a fresh recompute. -/
theorem grand_total_fanout (store : List StudentDoc) (bank : List Row) (doc_id : String)
    (pick : String → Option Int) (now : Nat) (sel : StudentDoc)
    (hf : store.find? (fun d => d.doc_id == doc_id) = some sel) :
    ∀ d ∈ save_evaluation store bank doc_id pick now,
      d.roll = pyStrip sel.roll →
      d.evaluation.grand_total =
        some (((load_student_data store (pyStrip sel.roll)).map
          (fun d2 => if d2.doc_id == doc_id then page_final_score bank sel pick
            else (d2.evaluation.final_total).getD 0)).sum) := by
  intro d hd hroll
  rw [save_evaluation_map store bank doc_id pick now sel hf] at hd
  rcases List.mem_map.1 hd with ⟨d0, hd0, hfd⟩
  have hg : (eval_for store bank doc_id sel pick now).grand_total =
      some (calculate_real_time_totals (load_student_data store (pyStrip sel.roll)) doc_id
        (page_final_score bank sel pick)) := rfl
  rw [← hfd] at hroll ⊢
  unfold saveF upd_fanout
  by_cases hr : ((upd_selected doc_id (eval_for store bank doc_id sel pick now) d0).roll ==
      pyStrip sel.roll) = true
  · simp only [hr, if_true]
    rw [hg, crt_eq_sum]
  · exfalso
    apply hr
    unfold saveF at hroll
    have hru : (upd_fanout (pyStrip sel.roll)
        (eval_for store bank doc_id sel pick now).grand_total
        (upd_selected doc_id (eval_for store bank doc_id sel pick now) d0)).roll =
        (upd_selected doc_id (eval_for store bank doc_id sel pick now) d0).roll :=
      upd_fanout_roll _ _ _
    rw [hru] at hroll
    simpa using hroll

/-- Claim C1 witness: the amended fan-out law applied to the concrete
two-document store gives grand_total 100 on the untouched document. -/
theorem grand_total_fanout_witness : d2Dsaved.evaluation.grand_total = some 100 :=
  (grand_total_fanout [d1A, d2D] [] "d1" noPick 0 d1A (by decide) d2Dsaved (by decide)
    (by decide)).trans (by decide)

/-! ## Claim C2: the likert mapping -/

/-- Claim C2 counterexample: a likert response of 6 contributes 4, not 0,
because the code clamps value - 1 into the range 0..4. -/
theorem likert_six_counterexample :
    calculate_auto_scores [lrowL1] [mkResp "L1" "6"] = (0, 4) ∧
      calculate_auto_scores [lrowL1] [mkResp "L1" "0"] = (0, 0) ∧
      (4 : Int) ≠ 0 := by
  refine ⟨by decide, by decide, by decide⟩

/-- Claim C2 (amended): a likert response parsed as the integer v
contributes max 0 (min 4 (v - 1)) — so 1..5 give 0..4, and 0 gives 0, but
6 is clamped to 4 rather than contributing 0 — and an unparsable response
contributes 0.  The concrete table for inputs 1,2,3,4,5,0,6 and a
non-numeric string follows. -/
theorem likert_mapping_amended :
    (∀ s : String,
      calculate_auto_scores [lrowL1] [mkResp "L1" s] =
        (0, match pyFloatInt (pyLower (pyStrip s)) with
            | some v => max 0 (min 4 (v - 1))
            | none => 0)) ∧
      calculate_auto_scores [lrowL1] [mkResp "L1" "1"] = (0, 0) ∧
      calculate_auto_scores [lrowL1] [mkResp "L1" "2"] = (0, 1) ∧
      calculate_auto_scores [lrowL1] [mkResp "L1" "3"] = (0, 2) ∧
      calculate_auto_scores [lrowL1] [mkResp "L1" "4"] = (0, 3) ∧
      calculate_auto_scores [lrowL1] [mkResp "L1" "5"] = (0, 4) ∧
      calculate_auto_scores [lrowL1] [mkResp "L1" "0"] = (0, 0) ∧
      calculate_auto_scores [lrowL1] [mkResp "L1" "6"] = (0, 4) ∧
      calculate_auto_scores [lrowL1] [mkResp "L1" "agree"] = (0, 0) := by
  refine ⟨?_, by decide, by decide, by decide, by decide, by decide, by decide, by decide,
    by decide⟩
  intro s
  have hq : entry_qid (mkResp "L1" s) = some "L1" := rfl
  have ha : entry_ans (mkResp "L1" s) = some (pyLower (pyStrip s)) := rfl
  rw [calculate_auto_scores, List.foldl_cons, List.foldl_nil, auto_score_step, hq, ha]
  by_cases hs : pyLower (pyStrip s) = ""
  · rw [hs]
    simp only [show (("L1" : String) == "") = false from rfl, Bool.false_or]
    simp only [show (("" : String) == "") = true from rfl, if_true]
    simp [show pyFloatInt "" = none from rfl]
  · simp only [show (("L1" : String) == "") = false from rfl, Bool.false_or,
      show (pyLower (pyStrip s) == "") = false from by simpa using hs, if_false]
    rw [show find_question_row [lrowL1] "L1" = some lrowL1 from by decide]
    simp only [show pyStrip (pyLower lrowL1.qtype) = "likert" from by decide]
    simp only [show (("likert" : String) == "mcq") = false from rfl,
      show (("likert" : String) == "likert") = true from rfl, Bool.false_eq_true, if_false,
      if_true]
    cases hv : pyFloatInt (pyLower (pyStrip s)) with
    | none => simp
    | some v => simp

/-! ## Claim C3: mcq matching and comparison -/

/-- Claim C3 counterexample: the response b scores 1 against the stored
answer B although the trimmed strings differ (the comparison lowercases
both sides), and a response with id 5 is matched to the bank row A5
although it has no exact trimmed id match (the lookup also tries
prefix-stripped aliases). -/
theorem mcq_matching_counterexample :
    calculate_auto_scores [rowB] [mkResp "Q1" "b"] = (1, 0) ∧
      pyStrip "b" ≠ pyStrip "B" ∧
      calculate_auto_scores [rowA5] [mkResp "5" "x"] = (1, 0) ∧
      pyStrip "5" ≠ pyStrip "A5" := by
  refine ⟨by decide, by decide, by decide, by decide⟩

/-- Claim C3 (amended): for the one-question mcq bank with answer B, a
response scores 1 exactly when its stripped, lowercased text equals b
(so B scores 1, C and a missing response score 0, with 1 added per match
and no partial credit); id matching tries the exact trimmed id and also
prefix variants, so response id 5 matches bank row A5. -/
theorem mcq_scoring_amended :
    (∀ s : String,
      calculate_auto_scores [rowB] [mkResp "Q1" s] =
        ((if pyLower (pyStrip s) == "b" then 1 else 0 : Int), 0)) ∧
      calculate_auto_scores [rowB] [mkResp "Q1" "B"] = (1, 0) ∧
      calculate_auto_scores [rowB] [mkResp "Q1" "C"] = (0, 0) ∧
      calculate_auto_scores [rowB] [] = (0, 0) ∧
      calculate_auto_scores [rowA5] [mkResp "5" "x"] = (1, 0) ∧
      calculate_auto_scores [rowB] [mkResp "Q1" "B", mkResp "Q1" "B"] = (2, 0) := by
  refine ⟨?_, by decide, by decide, by decide, by decide, by decide⟩
  intro s
  have hq : entry_qid (mkResp "Q1" s) = some "Q1" := rfl
  have ha : entry_ans (mkResp "Q1" s) = some (pyLower (pyStrip s)) := rfl
  rw [calculate_auto_scores, List.foldl_cons, List.foldl_nil, auto_score_step, hq, ha]
  by_cases hs : pyLower (pyStrip s) = ""
  · rw [hs]
    simp [show (("Q1" : String) == "") = false from rfl]
  · simp only [show (("Q1" : String) == "") = false from rfl, Bool.false_or,
      show (pyLower (pyStrip s) == "") = false from by simpa using hs, if_false]
    rw [show find_question_row [rowB] "Q1" = some rowB from by decide]
    simp only [show pyStrip (pyLower rowB.qtype) = "mcq" from by decide]
    simp only [show (("mcq" : String) == "mcq") = true from rfl, if_true]
    rw [show get_correct_answer rowB = some "b" from by decide]
    simp only [show (("b" : String) == "") = false from rfl, Bool.not_false, Bool.true_and]
    by_cases hb : pyLower (pyStrip s) = "b"
    · simp [hb]
    · simp [show (pyLower (pyStrip s) == "b") = false from by simpa using hb]

/-! ## Claim C4: mark-scale enforcement at save time -/

/-- Claim C4 counterexample: a stored mark 5 on the four-point question
12 and a stored mark 2 on the binary question 1 are not rejected at save
time — the radio pass silently replaces them by the default 0 and the
save stores these coerced marks; no validation error exists anywhere in
the save path, whose result type is total. -/
theorem out_of_scale_mark_coerced :
    (5 : Int) ∉ get_scale_options "12" ∧
      (2 : Int) ∉ get_scale_options "1" ∧
      evaluate_manual_questions [row12s, row1s] [] [("12", 5), ("1", 2)] noPick =
        (0, [("12", 0), ("1", 0)]) ∧
      save_core [staleDoc] [row12s, row1s] "dS" noPick 0 =
        some { auto_mcq := some 0, auto_likert := some 0,
               manual_marks := [("12", 0), ("1", 0)], manual_total := some 0,
               final_total := some 0, grand_total := some 0, evaluated_at := some 0 } := by
  refine ⟨by decide, by decide, by decide, by decide⟩

/-- Claim C4 (amended): the save path never raises a validation error;
instead, marks are constrained to the scale by the radio widget, so every
mark recorded for a question of the current bank lies in that question's
resolved scale, and an out-of-scale stored mark is silently replaced by
the default 0 when the form is rendered. -/
theorem saved_marks_in_scale (df : List Row) (responses : List RespEntry)
    (existing : Marks) (pick : String → Option Int) (row : Row)
    (hrow : row ∈ manual_questions df) (v : Int)
    (hv : dget (evaluate_manual_questions df responses existing pick).2 (row_qid row) =
      some v) :
    v ∈ get_scale_options (row_qid row) := by
  rw [evaluate_manual_eq_run] at hv
  have hst := stableAt_run pick (manual_questions df) 0 existing row hrow
  unfold StableAt at hst
  rw [hv] at hst
  have hveq : v = mark_for pick (mq_run pick (manual_questions df) (0, existing)).2
      (row_qid row) := by
    exact Option.some.inj hst
  rw [hveq]
  exact mark_for_mem _ _ _

/-- Claim C4 witness: in the concrete stale-marks run, the recorded mark
for question 12 is 0, and by the theorem it lies in the scale of 12. -/
theorem saved_marks_in_scale_witness : (0 : Int) ∈ get_scale_options (row_qid row12s) :=
  saved_marks_in_scale [row12s] [] [("12", 5)] noPick row12s (by decide) 0 (by decide)

/-! ## Claim C5: idempotence of a repeated save -/

/-- Claim C5 counterexample: saving twice with the same grader input
produces different stored Evaluation records, because the record carries
the server timestamp of the save. -/
theorem save_twice_timestamp_differs :
    ((save_evaluation [d1A, d2D] [] "d1" noPick 1)[0]?).map (fun d => d.evaluation) ≠
      ((save_evaluation (save_evaluation [d1A, d2D] [] "d1" noPick 1) [] "d1"
        noPick 2)[0]?).map (fun d => d.evaluation) := by
  decide

/-- Claim C5 (amended): a second save with the same grader input, run on
the store the first save produced, writes an Evaluation identical to the
first except for the evaluated_at server timestamp — in particular the
same marks, totals and grand_total. -/
theorem save_core_twice (store : List StudentDoc) (bank : List Row) (doc_id : String)
    (pick : String → Option Int) (t1 t2 : Nat) (e1 : EvalRec)
    (h : save_core store bank doc_id pick t1 = some e1) :
    save_core (save_evaluation store bank doc_id pick t1) bank doc_id pick t2 =
      some { e1 with evaluated_at := some t2 } := by
  rcases hf : store.find? (fun d => d.doc_id == doc_id) with _ | sel
  · rw [save_core, hf] at h
    cases h
  · rw [save_core, hf, Option.map_some'] at h
    have he1 : e1 = eval_for store bank doc_id sel pick t1 := (Option.some.injEq _ _ ▸ h).symm
    have hsel : (sel.doc_id == doc_id) = true := by
      simpa using List.find?_some hf
    have hmap := save_evaluation_map store bank doc_id pick t1 sel hf
    have hfind : (save_evaluation store bank doc_id pick t1).find?
        (fun d => d.doc_id == doc_id) = some (saveF store bank doc_id sel pick t1 sel) := by
      rw [hmap, List.find?_map]
      have hp : ((fun d => d.doc_id == doc_id) ∘ saveF store bank doc_id sel pick t1) =
          (fun d => d.doc_id == doc_id) := by
        funext d
        simp [Function.comp, saveF_doc_id]
      rw [hp, hf, Option.map_some']
    rw [save_core, hfind, Option.map_some', Option.some.injEq]
    rw [saveF_sel store bank doc_id sel pick t1 hsel]
    have hmm := evaluate_manual_idem bank sel.responses sel.evaluation.manual_marks pick
    have hsd : load_student_data (save_evaluation store bank doc_id pick t1)
        (pyStrip sel.roll) =
        (load_student_data store (pyStrip sel.roll)).map
          (saveF store bank doc_id sel pick t1) := by
      rw [hmap, load_student_data, load_student_data, List.filter_map]
      have hq : ((fun d => pyStrip d.roll == pyStrip sel.roll &&
            !(pyStrip d.sectionName == "")) ∘ saveF store bank doc_id sel pick t1) =
          (fun d => pyStrip d.roll == pyStrip sel.roll && !(pyStrip d.sectionName == "")) := by
        funext d
        simp [Function.comp, saveF_roll, saveF_sectionName]
      rw [hq]
    have hcrt : ∀ fs : Int,
        calculate_real_time_totals
            (load_student_data (save_evaluation store bank doc_id pick t1)
              (pyStrip sel.roll)) doc_id fs =
          calculate_real_time_totals (load_student_data store (pyStrip sel.roll)) doc_id
            fs := by
      intro fs
      rw [hsd]
      exact crt_map_eq doc_id fs _ _ (saveF_doc_id store bank doc_id sel pick t1)
        (saveF_final_of_ne store bank doc_id sel pick t1)
    rw [he1]
    show eval_for (save_evaluation store bank doc_id pick t1) bank doc_id
        { sel with evaluation := eval_for store bank doc_id sel pick t1 } pick t2 = _
    unfold eval_for
    simp only
    rw [hmm, hcrt]

/-- Claim C5 witness: the second save of the concrete store writes the
first record with only the timestamp changed from 1 to 2. -/
theorem save_core_twice_witness :
    save_core (save_evaluation [d1A, d2D] [] "d1" noPick 1) [] "d1" noPick 2 =
      some { auto_mcq := some 0, auto_likert := some 0, manual_marks := [],
             manual_total := some 0, final_total := some 0, grand_total := some 100,
             evaluated_at := some 2 } :=
  save_core_twice [d1A, d2D] [] "d1" noPick 1 2
    { auto_mcq := some 0, auto_likert := some 0, manual_marks := [],
      manual_total := some 0, final_total := some 0, grand_total := some 100,
      evaluated_at := some 1 } (by decide)

/-! ## Claim C6: the N/A markers of the exported report -/

/-- Claim C6 counterexample: the export hard-codes the markers by section
name, so the MCQ column of an Adaptability and Learning row reads N/A
even when that section's bank does contain an mcq row, and an Aptitude
Test row with no stored mcq total also reads N/A whatever the bank
holds. -/
theorem export_na_counterexample :
    bank_has_type [rowB] "mcq" = true ∧
      (export_row "Adaptability & Learning" (some 3) (some 4) none).mcq_show =
        CellVal.s "N/A" ∧
      (export_row "Aptitude Test" none (some 4) (some 5)).mcq_show = CellVal.s "N/A" ∧
      CellVal.s "N/A" ≠ CellVal.i 0 := by
  refine ⟨by decide, by decide, by decide, by decide⟩

/-- Claim C6 (amended): in export_marks the N/A markers are governed by a
fixed section-name table together with the presence of the stored totals
— the MCQ cell is N/A unless the section is Aptitude Test or
Communication Skills - Objective with a stored mcq total, and likewise
for the likert and text cells — while the separate in-app report of
evaluation.py shows the literal NA exactly when the bank lacks the
corresponding question type. -/
theorem export_na_characterization :
    (∀ (sN : String) (mcq likert text : Option Int),
      ((export_row sN mcq likert text).mcq_show = CellVal.s "N/A" ↔
        ((sN = "Aptitude Test" ∨ sN = "Communication Skills - Objective") → mcq = none)) ∧
      ((export_row sN mcq likert text).likert_show = CellVal.s "N/A" ↔
        (sN = "Adaptability & Learning" → likert = none)) ∧
      ((export_row sN mcq likert text).text_show = CellVal.s "N/A" ↔
        ((sN = "Aptitude Test" ∨ sN = "Communication Skills - Descriptive") →
          text = none))) ∧
    (∀ (df : List Row) (v : Int),
      (app_mcq_display df v = CellVal.s "NA" ↔ bank_has_type df "mcq" = false) ∧
      (app_likert_display df v = CellVal.s "NA" ↔ bank_has_type df "likert" = false) ∧
      (app_manual_display df v = CellVal.s "NA" ↔ bank_has_manual df = false)) := by
  constructor
  · intro sN mcq likert text
    by_cases h1 : sN = "Adaptability & Learning"
    · subst h1
      refine ⟨?_, ?_, ?_⟩ <;> simp [export_row, showOpt_eq_na]
    · by_cases h2 : sN = "Aptitude Test"
      · subst h2
        refine ⟨?_, ?_, ?_⟩ <;> simp [export_row, showOpt_eq_na]
      · by_cases h3 : sN = "Communication Skills - Descriptive"
        · subst h3
          refine ⟨?_, ?_, ?_⟩ <;> simp [export_row, showOpt_eq_na]
        · by_cases h4 : sN = "Communication Skills - Objective"
          · subst h4
            refine ⟨?_, ?_, ?_⟩ <;> simp [export_row, showOpt_eq_na]
          · have b1 : (sN == "Adaptability & Learning") = false := by simpa using h1
            have b2 : (sN == "Aptitude Test") = false := by simpa using h2
            have b3 : (sN == "Communication Skills - Descriptive") = false := by
              simpa using h3
            have b4 : (sN == "Communication Skills - Objective") = false := by
              simpa using h4
            refine ⟨?_, ?_, ?_⟩ <;>
              simp [export_row, b1, b2, b3, b4, h1, h2, h3, h4, showOpt_eq_na]
  · intro df v
    refine ⟨?_, ?_, ?_⟩
    · unfold app_mcq_display
      split <;> simp_all
    · unfold app_likert_display
      split <;> simp_all
    · unfold app_manual_display
      split <;> simp_all

/-! ## Claim C7: text_total against the text_marks map -/

/-- Claim C7 counterexample: with a stale stored mark for question 99
that is no longer in the bank, the saved manual total is 1 while the sum
of the values of the saved marks map is 3. -/
theorem text_total_stale_counterexample :
    (evaluate_manual_questions [row1s] [] [("1", 1), ("99", 2)] noPick).1 = 1 ∧
      ((evaluate_manual_questions [row1s] [] [("1", 1), ("99", 2)] noPick).2.map
        (fun p => p.2)).sum = 3 ∧
      (1 : Int) ≠ 3 := by
  refine ⟨by decide, by decide, by decide⟩

/-- Claim C7 (amended): text_total equals the sum of the recorded marks
over the bank's current manual questions only; entries of text_marks for
question ids no longer in the bank persist unchanged and are excluded
from the total. -/
theorem text_total_eq_bank_marks (df : List Row) (responses : List RespEntry)
    (existing : Marks) (pick : String → Option Int) :
    (evaluate_manual_questions df responses existing pick).1 =
      ((manual_questions df).map (fun row =>
        (dget (evaluate_manual_questions df responses existing pick).2
          (row_qid row)).getD 0)).sum ∧
    ∀ k : String, k ∉ (manual_questions df).map row_qid →
      dget (evaluate_manual_questions df responses existing pick).2 k = dget existing k := by
  constructor
  · rw [evaluate_manual_eq_run]
    have := mq_run_total pick (manual_questions df) 0 existing
    rwa [zero_add] at this
  · intro k hk
    rw [evaluate_manual_eq_run]
    exact dget_run_notMem pick (manual_questions df) 0 existing k hk

/-- Claim C7 witness: the stale mark for question 99 survives the save
unchanged at value 2. -/
theorem text_total_eq_bank_marks_witness :
    dget (evaluate_manual_questions [row1s] [] [("1", 1), ("99", 2)] noPick).2 "99" =
      some 2 :=
  ((text_total_eq_bank_marks [row1s] [] [("1", 1), ("99", 2)] noPick).2 "99"
    (by decide)).trans (by decide)

/-! ## Claim C8: the mark-scale resolver -/

/-- Claim C8: get_scale_options is a pure function of the question id (so
the same id receives the same scale for every student); every scale it
returns is a contiguous ascending run of integers starting at 0; an id
whose numeric value, read after removing the letter Q and surrounding
whitespace, lies in the first static set gets the four-point scale, one
in the second static set the three-point scale, and every other id —
including any id that does not parse — the binary scale. -/
theorem scale_resolution (qid : String) :
    (∃ n : Nat, 0 < n ∧ get_scale_options qid = (List.range n).map (fun k => (k : Int))) ∧
    (∀ m : Int, pyInt (pyStrip (removeChar 'Q' qid)) = some m →
      get_scale_options qid =
        if m ∈ FOUR_POINT_QUESTIONS then [0, 1, 2, 3]
        else if m ∈ THREE_POINT_QUESTIONS then [0, 1, 2]
        else [0, 1]) ∧
    (pyInt (pyStrip (removeChar 'Q' qid)) = none → get_scale_options qid = [0, 1]) := by
  refine ⟨?_, ?_, ?_⟩
  · rcases scale_cases qid with h | h | h
    · exact ⟨4, by decide, h.trans (by decide)⟩
    · exact ⟨3, by decide, h.trans (by decide)⟩
    · exact ⟨2, by decide, h.trans (by decide)⟩
  · intro m hm
    rw [get_scale_options, parse_qid, hm]
    rfl
  · intro hm
    rw [get_scale_options, parse_qid, hm]
    decide

/-- Claim C8 witness: Q12 resolves to the four-point scale and A12, whose
suffix does not parse once only Q is removed, to the binary scale. -/
theorem scale_resolution_witness :
    get_scale_options "Q12" = [0, 1, 2, 3] ∧ get_scale_options "A12" = [0, 1] :=
  ⟨((scale_resolution "Q12").2.1 12 (by decide)).trans (by decide),
   (scale_resolution "A12").2.2 (by decide)⟩

/-! ## Claim C9: the answer-key column probe -/

/-- Claim C9 counterexample: on a row holding both CorrectAnswer B and
Correct C the code returns c, while the order the claim states returns b;
and a row whose only answer column is RightAnswer yields nothing, because
RightAnswer is not among the probed candidates. -/
theorem answer_col_order_counterexample :
    get_correct_answer rowCC = some "c" ∧
      spec_get_correct_answer rowCC = some "b" ∧
      get_correct_answer rowRA = none ∧
      spec_get_correct_answer rowRA = some "b" := by
  refine ⟨by decide, by decide, by decide, by decide⟩

/-- Claim C9 (amended): the correct answer is taken from the first
present non-null column in the order Answer, Correct, CorrectAnswer,
Ans, AnswerKey (RightAnswer is never probed), and the value is
normalized: stripped, lowercased, with quotes and periods removed. -/
theorem answer_col_probing (row : Row) (v : String) :
    (colGet row "Answer" = some v → get_correct_answer row = some (clean_answer v)) ∧
    (colGet row "Answer" = none → colGet row "Correct" = some v →
      get_correct_answer row = some (clean_answer v)) ∧
    (colGet row "Answer" = none → colGet row "Correct" = none →
      colGet row "CorrectAnswer" = some v → get_correct_answer row = some (clean_answer v)) ∧
    (colGet row "Answer" = none → colGet row "Correct" = none →
      colGet row "CorrectAnswer" = none → colGet row "Ans" = some v →
      get_correct_answer row = some (clean_answer v)) ∧
    (colGet row "Answer" = none → colGet row "Correct" = none →
      colGet row "CorrectAnswer" = none → colGet row "Ans" = none →
      colGet row "AnswerKey" = some v → get_correct_answer row = some (clean_answer v)) ∧
    (colGet row "Answer" = none → colGet row "Correct" = none →
      colGet row "CorrectAnswer" = none → colGet row "Ans" = none →
      colGet row "AnswerKey" = none → get_correct_answer row = none) := by
  refine ⟨?_, ?_, ?_, ?_, ?_, ?_⟩ <;>
    · intros
      simp_all [get_correct_answer, answer_cols, List.findSome?_cons]

/-- Claim C9 witness: a row with an Answer column holding B yields b. -/
theorem answer_col_probing_witness : get_correct_answer rowB = some "b" :=
  ((answer_col_probing rowB "B").1 (by decide)).trans (by decide)

/-! ## Claim C10: the frame of a save on other sections -/

/-- Claim C10: saving one section leaves every other document of the
store — in particular every other section of the same student — unchanged
in every field except possibly the grand_total of its Evaluation: the
document identity, roll, section, responses, stored marks, totals and
timestamp are all preserved. -/
theorem save_section_frame (store : List StudentDoc) (bank : List Row) (doc_id : String)
    (pick : String → Option Int) (now : Nat) (i : Nat) (d d2 : StudentDoc)
    (hd : store[i]? = some d)
    (hd2 : (save_evaluation store bank doc_id pick now)[i]? = some d2)
    (hne : (d.doc_id == doc_id) = false) :
    d2.doc_id = d.doc_id ∧ d2.roll = d.roll ∧ d2.sectionName = d.sectionName ∧
      d2.responses = d.responses ∧
      d2.evaluation.auto_mcq = d.evaluation.auto_mcq ∧
      d2.evaluation.auto_likert = d.evaluation.auto_likert ∧
      d2.evaluation.manual_marks = d.evaluation.manual_marks ∧
      d2.evaluation.manual_total = d.evaluation.manual_total ∧
      d2.evaluation.final_total = d.evaluation.final_total ∧
      d2.evaluation.evaluated_at = d.evaluation.evaluated_at := by
  rcases hf : store.find? (fun d => d.doc_id == doc_id) with _ | sel
  · simp only [save_evaluation, hf] at hd2
    rw [hd] at hd2
    cases hd2
    exact ⟨rfl, rfl, rfl, rfl, rfl, rfl, rfl, rfl, rfl, rfl⟩
  · rw [save_evaluation_map store bank doc_id pick now sel hf, List.getElem?_map, hd]
      at hd2
    have hd2' : d2 = saveF store bank doc_id sel pick now d := by
      simpa using hd2.symm
    have hu : upd_selected doc_id (eval_for store bank doc_id sel pick now) d = d := by
      unfold upd_selected
      simp [hne]
    rw [hd2', saveF, hu]
    rcases upd_fanout_eval (pyStrip sel.roll)
        (eval_for store bank doc_id sel pick now).grand_total d with h | h <;>
      exact ⟨upd_fanout_doc_id _ _ _, upd_fanout_roll _ _ _, upd_fanout_sectionName _ _ _,
        upd_fanout_responses _ _ _, by rw [h], by rw [h], by rw [h], by rw [h], by rw [h],
        by rw [h]⟩

/-- Claim C10 witness: in the concrete two-document save, the untouched
descriptive-section document keeps every field, its stored marks and
totals included, with only grand_total rewritten. -/
theorem save_section_frame_witness :
    d2Dsaved.doc_id = d2D.doc_id ∧ d2Dsaved.roll = d2D.roll ∧
      d2Dsaved.sectionName = d2D.sectionName ∧
      d2Dsaved.responses = d2D.responses ∧
      d2Dsaved.evaluation.auto_mcq = d2D.evaluation.auto_mcq ∧
      d2Dsaved.evaluation.auto_likert = d2D.evaluation.auto_likert ∧
      d2Dsaved.evaluation.manual_marks = d2D.evaluation.manual_marks ∧
      d2Dsaved.evaluation.manual_total = d2D.evaluation.manual_total ∧
      d2Dsaved.evaluation.final_total = d2D.evaluation.final_total ∧
      d2Dsaved.evaluation.evaluated_at = d2D.evaluation.evaluated_at :=
  save_section_frame [d1A, d2D] [] "d1" noPick 0 1 d2D d2Dsaved (by decide) (by decide)
    (by decide)

end SkillEval
